import Mathlib

/-!
Verification of the campaign scheduling / incremental sync engine of the
news-monitoring-agent repository, against its natural-language specification.

The definitions below are a shallow embedding of the Python source:

* `src/agent/fetch_multi_source.py` — `fetch_articles_rss`,
  `fetch_twitter_articles`, `fetch_articles_multi_source`.
* `src/agent/google_sheets_manager.py` — the recency filter and the
  title/url deduplication inside `save_articles_to_spreadsheet`.
* `src/database/managers.py` — `DatabaseCampaignManager.update_campaign_stats`
  and `DatabaseCampaignManager.get_campaigns_for_execution`.
* `src/agent/scheduler.py` — the statistics step of
  `CampaignScheduler.run_campaign`.

Timestamps (Python `datetime` values) are modelled as seconds, of type `Int`;
the calendar date `.date()` of a timestamp is its floor-division by 86400.
Network-dependent collaborators are modelled as explicit inputs: the parsed
feed for a query (`feedparser.parse`) is a function from the query string to
the entry list, the redirect resolution of `get_real_url` is a `String →
String` parameter, and the Twitter API outcome is a small inductive covering
the code's three paths (missing credentials, API exception, tweet list).
-/

namespace NewsAgent

/-- Seconds per day; `dayOf t` models `datetime.date()` of a timestamp. -/
def dayOf (t : Int) : Int := Int.ediv t 86400

/-- Python `str.strip()`: drop leading and trailing whitespace. -/
def pyStrip (s : String) : String :=
  ⟨((s.data.dropWhile Char.isWhitespace).reverse.dropWhile Char.isWhitespace).reverse⟩

/-- The capture group of `re.search(r'href="([^"]*)"', s)`: the text between
the first occurrence of `href="` and the following quote, if any. -/
def findHrefUrl : List Char → Option (List Char)
  | 'h' :: 'r' :: 'e' :: 'f' :: '=' :: '"' :: rest => some (rest.takeWhile (· ≠ '"'))
  | _ :: rest => findHrefUrl rest
  | [] => none

/-- An item as produced by the fetch layer (a Python dict with keys
`date`, `source`, `titre`, `url`, and optionally `is_suggestion`). -/
structure Article where
  date : Int
  source : String
  titre : String
  url : String
  is_suggestion : Bool := false
deriving DecidableEq, Repr

/-- A parsed RSS feed entry (`feedparser` entry): optional title, link, and
the optional `published_parsed` / `updated_parsed` timestamps. -/
structure Entry where
  title : Option String
  link : String
  published_parsed : Option Int
  updated_parsed : Option Int
deriving DecidableEq, Repr

/-- Models `parse_entry_date` (fetch_multi_source.py:14-24): `published_parsed` if
present, else `updated_parsed`, else the current time. -/
def parse_entry_date (e : Entry) (now : Int) : Int :=
  match e.published_parsed with
  | some d => d
  | none =>
    match e.updated_parsed with
    | some d => d
    | none => now

/-- One Google News result row (fetch_multi_source.py:46-51); `resolve`
models `get_real_url` (network redirect resolution). -/
def mkRssArticle (resolve : String → String) (now : Int) (e : Entry) : Article :=
  { date := parse_entry_date e now
    source := "Google News RSS"
    titre := e.title.getD ""
    url := resolve e.link }

/-- Stable insertion (newest first) for `results.sort(key=date, reverse=True)`:
an element moves left past exactly the strictly-older entries, so equal dates
keep their original order, as Python's stable sort does. -/
def insertByDateDesc (a : Article) : List Article → List Article
  | [] => [a]
  | b :: rest => if b.date ≤ a.date then a :: b :: rest else b :: insertByDateDesc a rest

/-- Models `results.sort(key=lambda x: x['date'], reverse=True)` — stable,
descending by date. -/
def sortByDateDesc (l : List Article) : List Article :=
  l.foldr insertByDateDesc []

/-- The URL-based first-occurrence filter of fetch_articles_rss
(fetch_multi_source.py:56-63). -/
def dedupByUrl (seen : List String) : List Article → List Article
  | [] => []
  | a :: rest =>
    if a.url ∈ seen then dedupByUrl seen rest
    else a :: dedupByUrl (a.url :: seen) rest

/-- The successful body of `fetch_articles_rss` (fetch_multi_source.py:31-65):
map the first `max_items` feed entries to articles, sort newest first,
drop repeated URLs, and cap at `max_items`. -/
def rssArticles (entries : List Entry) (resolve : String → String)
    (max_items : Nat) (now : Int) : List Article :=
  (dedupByUrl [] (sortByDateDesc ((entries.take max_items).map (mkRssArticle resolve now)))).take
    max_items

/-- Models `fetch_articles_rss` (fetch_multi_source.py:26-65). An empty (or
whitespace-only) query raises `ValueError("Le mot-clé ne peut pas être
vide.")`; `feed` models `feedparser.parse` of the query's Google News URL. -/
def fetch_articles_rss (query : String) (feed : String → List Entry)
    (resolve : String → String) (max_items : Nat) (now : Int) :
    Except String (List Article) :=
  if pyStrip query = "" then Except.error "Le mot-clé ne peut pas être vide."
  else Except.ok (rssArticles (feed query) resolve max_items now)

/-- A tweet as consumed by `fetch_twitter_articles`. -/
structure Tweet where
  text : String
  id : String
  screen_name : String
  created_at : Int
deriving DecidableEq, Repr

/-- The three control paths of `fetch_twitter_articles`
(fetch_multi_source.py:116-163): missing credentials, an API exception
(both return `[]`), or a tweet list. -/
inductive TwitterOutcome where
  | noCreds : TwitterOutcome
  | apiError : TwitterOutcome
  | ok : List Tweet → TwitterOutcome
deriving DecidableEq, Repr

/-- One tweet row (fetch_multi_source.py:146-152). -/
def mkTweetArticle (t : Tweet) : Article :=
  { date := t.created_at
    source := "Twitter - @" ++ t.screen_name
    titre := if 100 < t.text.data.length then ⟨t.text.data.take 100⟩ ++ "..." else t.text
    url := "https://twitter.com/user/status/" ++ t.id }

/-- Models `fetch_twitter_articles` (fetch_multi_source.py:116-163): credentials
missing or any API error yields zero items; otherwise up to `max_items`
tweets become articles. -/
def fetch_twitter_articles (outcome : TwitterOutcome) (max_items : Nat) : List Article :=
  match outcome with
  | .noCreds => []
  | .apiError => []
  | .ok tweets => (tweets.take max_items).map mkTweetArticle

/-- The synthetic "AI Suggestions" pseudo-article
(fetch_multi_source.py:319-326). -/
def suggestionArticle (expanded : List String) (now : Int) : Article :=
  { date := now
    source := "AI Suggestions"
    titre := "💡 Mots-clés suggérés: " ++ String.intercalate ", " (expanded.take 3) ++
      (if 3 < expanded.length then "..." else "")
    url := "#keyword-suggestions"
    is_suggestion := true }

/-- Models `fetch_articles_multi_source` (fetch_multi_source.py:270-347). The
keyword-expansion chain (enhancer construction plus
`AIKeywordExpander.expand_keywords`) is modelled by `expansion`: `none` when
the chain raises (the surrounding `try/except` logs and continues), and
`some (french_words, english_words)` when it returns. The fetch itself is
always performed with the original `keywords`; on success with at least 5
collected articles and a non-empty expansion, the suggestion pseudo-article
is inserted at index 0 before the final `[:max_items]` cap. -/
def fetch_articles_multi_source (keywords : String) (max_items : Nat)
    (show_keyword_suggestions : Bool) (feed : String → List Entry)
    (resolve : String → String) (twitter : TwitterOutcome)
    (expansion : Option (List String × List String)) (now : Int) :
    Except String (List Article) :=
  match fetch_articles_rss keywords feed resolve max_items now with
  | Except.error e => Except.error e
  | Except.ok rss =>
    let social := fetch_twitter_articles twitter 10
    let all := rss ++ social
    if show_keyword_suggestions ∧ all ≠ [] ∧ 5 ≤ all.length then
      match expansion with
      | none => Except.ok (all.take max_items)
      | some (fr, en) =>
        let expanded := fr ++ en
        if expanded ≠ [] then
          Except.ok ((suggestionArticle expanded now :: all).take max_items)
        else Except.ok (all.take max_items)
    else Except.ok (all.take max_items)

/-- The normalised URL used for the dedup identity
(google_sheets_manager.py:270-276): strip, then if a `href="..."` wrapper is
present take its capture group and strip again. -/
def normUrl (u : String) : String :=
  let u := pyStrip u
  match findHrefUrl u.data with
  | some cap => pyStrip ⟨cap⟩
  | none => u

/-- The dedup identifier `f"{title}|{url}"`
(google_sheets_manager.py:269-278): stripped title, `|`, normalised URL. -/
def identityKey (a : Article) : String :=
  pyStrip a.titre ++ "|" ++ normUrl a.url

/-- The duplicate filter of `save_articles_to_spreadsheet`
(google_sheets_manager.py:266-284): walk the candidates, keep an article iff
its identifier is not yet in `existing` AND its (stripped) title and
(normalised) url are both non-empty; every kept identifier is added to the
set. Returns the kept articles and the final key set. The Python set
`existing_articles` is modelled as a list used only through membership. -/
def dedupArticles (existing : List String) : List Article → List Article × List String
  | [] => ([], existing)
  | a :: rest =>
    let title := pyStrip a.titre
    let url := normUrl a.url
    let key := title ++ "|" ++ url
    if key ∉ existing ∧ title ≠ "" ∧ url ≠ "" then
      let r := dedupArticles (key :: existing) rest
      (a :: r.1, r.2)
    else dedupArticles existing rest

/-- The "last 2 days" recency filter
(google_sheets_manager.py:211-229): keep articles whose calendar date is at
least `today - 2 days`. (Articles produced by this pipeline always carry an
ISO date, so the `except`-include branches for missing/unparseable dates are
not reachable here.) -/
def recencyFilter (now : Int) (articles : List Article) : List Article :=
  articles.filter (fun a => dayOf now - 2 ≤ dayOf a.date)

/-- The number of items the sink actually accepts for a batch: the recency
filter followed by the duplicate filter of `save_articles_to_spreadsheet`. -/
def sinkAccepted (existing : List String) (now : Int) (articles : List Article) :
    List Article :=
  (dedupArticles existing (recencyFilter now articles)).1

structure CampaignRow where
  id : String
  status : String
  frequency : String
  last_check : Option Int
  total_articles : Nat
  articles_today : Nat
  last_articles_date : Option Int
deriving DecidableEq, Repr

/-- Models `DatabaseCampaignManager.update_campaign_stats`
(database/managers.py:310-351): add `articles_count` to the total; if the
stored `last_articles_date` has today's calendar date, add it to
`articles_today` as well, otherwise restart `articles_today` at
`articles_count`; stamp `last_check` and `last_articles_date` with the
current time. -/
def update_campaign_stats (c : CampaignRow) (now : Int) (articles_count : Nat) :
    CampaignRow :=
  let new_total := c.total_articles + articles_count
  let new_articles_today :=
    match c.last_articles_date with
    | some d => if dayOf d = dayOf now then c.articles_today + articles_count
                else articles_count
    | none => articles_count
  { c with
    total_articles := new_total
    articles_today := new_articles_today
    last_check := some now
    last_articles_date := some now }

/-- The statistics step of `CampaignScheduler.run_campaign`
(scheduler.py:74-118): stats are updated only when the fetch returned a
non-empty list, and always with `len(articles)` — the fetched count. -/
def run_campaign_stats (c : CampaignRow) (now : Int) (articles : List Article) :
    CampaignRow :=
  if articles.isEmpty then c
  else update_campaign_stats c now articles.length

/-- The per-campaign due test of
`DatabaseCampaignManager.get_campaigns_for_execution`
(database/managers.py:403-432): never-run campaigns are due; otherwise the
elapsed time must reach the frequency's threshold; unrecognised frequency
strings are never due. -/
def campaignShouldRun (frequency : String) (last_check : Option Int) (now : Int) :
    Bool :=
  match last_check with
  | none => true
  | some t =>
    let d := now - t
    if frequency = "15min" ∧ 900 ≤ d then true
    else if frequency = "hourly" ∧ 3600 ≤ d then true
    else if frequency = "daily" ∧ 86400 ≤ d then true
    else if frequency = "weekly" ∧ 604800 ≤ d then true
    else false

/-- Models `DatabaseCampaignManager.get_campaigns_for_execution`
(database/managers.py:374-438): the active campaigns whose due test passes.
(The SQL `WHERE status = 'active'` is the first filter; the Python loop is
the second.) -/
def get_campaigns_for_execution (campaigns : List CampaignRow) (now : Int) :
    List CampaignRow :=
  (campaigns.filter (fun c => c.status = "active")).filter
    (fun c => campaignShouldRun c.frequency c.last_check now)

/-- The four frequency values of the spec's enum. -/
inductive Frequency where
  | fifteenMin | hourly | daily | weekly
deriving DecidableEq, Repr

/-- The frequency strings stored in the `frequency` column. -/
def Frequency.toStr : Frequency → String
  | .fifteenMin => "15min"
  | .hourly => "hourly"
  | .daily => "daily"
  | .weekly => "weekly"

/-- The spec's `interval` map, in seconds: FifteenMin→15m, Hourly→1h,
Daily→24h, Weekly→7d. -/
def Frequency.interval : Frequency → Int
  | .fifteenMin => 900
  | .hourly => 3600
  | .daily => 86400
  | .weekly => 604800

/-- Modelled from the spec (§4.2 step 1): the effective query the spec says
an expansion-enabled run should fetch with — `original OR expansion_1 OR …
OR expansion_k`, k capped at 5. Used only to compare the spec's claimed
query against the code's. -/
def specEffectiveQuery (keywords : String) (terms : List String) : String :=
  (terms.take 5).foldl (fun q t => q ++ " OR " ++ t) keywords

/-- Two candidate items differing only in the letter case of the title. -/
def c5_a1 : Article := { date := 0, source := "s", titre := "Breaking News", url := "http://x/1" }

/-- Same item as `c5_a1` with the title upper-cased. -/
def c5_a2 : Article := { date := 0, source := "s", titre := "BREAKING NEWS", url := "http://x/1" }

/-- A candidate with a title but no url. -/
def c8_article : Article := { date := 0, source := "s", titre := "Only title", url := "" }

/-- A concrete candidate with both a title and a url. -/
def c8_full_article : Article := { date := 0, source := "s", titre := "t", url := "u" }

/-- A campaign row with zeroed counters, used in concrete runs. -/
def baseRow : CampaignRow :=
  { id := "c1", status := "active", frequency := "hourly", last_check := some 0,
    total_articles := 0, articles_today := 0, last_articles_date := none }

/-- A fetched item whose key the sink already holds. -/
def c1_dupOld : Article := { date := 1728000000, source := "s", titre := "t1", url := "u1" }

/-- A genuinely new fetched item. -/
def c1_new : Article := { date := 1728000000, source := "s", titre := "t2", url := "u2" }

/-- An in-batch duplicate of `c1_new` (same key after stripping). -/
def c1_dupBatch : Article := { date := 1728000100, source := "s", titre := " t2 ", url := "u2" }

/-- The three fetched items of the concrete run. -/
def c1_fetched : List Article := [c1_dupOld, c1_new, c1_dupBatch]

/-- A concrete overdue hourly campaign. -/
def c2_row : CampaignRow :=
  { id := "c2", status := "active", frequency := "hourly", last_check := some 0,
    total_articles := 0, articles_today := 0, last_articles_date := none }

/-- Three fetched items whose newest `published_at` is 5. -/
def c3_articles : List Article :=
  [{ date := 3, source := "s", titre := "a", url := "u1" },
   { date := 5, source := "s", titre := "b", url := "u2" },
   { date := 4, source := "s", titre := "c", url := "u3" }]

/-- A same-length fetch with entirely different publication timestamps. -/
def c3_articles_other : List Article :=
  [{ date := 7, source := "s", titre := "a", url := "u1" },
   { date := 8, source := "s", titre := "b", url := "u2" },
   { date := 9, source := "s", titre := "c", url := "u3" }]

/-- A campaign whose stored daily-counter date is the previous day. -/
def c7_row : CampaignRow :=
  { id := "c7", status := "active", frequency := "daily", last_check := some 86400,
    total_articles := 10, articles_today := 7, last_articles_date := some 86400 }

/-- The combined article list `rss_articles + social_articles`
(fetch_multi_source.py:292-299) of a successful multi-source fetch. -/
def allCollected (keywords : String) (feed : String → List Entry)
    (resolve : String → String) (twitter : TwitterOutcome) (max_items : Nat)
    (now : Int) : List Article :=
  rssArticles (feed keywords) resolve max_items now ++ fetch_twitter_articles twitter 10

/-- A feed that has no results for the raw keywords but five results for the
spec's OR-expanded query. -/
def c4_feed (q : String) : List Entry :=
  if q = specEffectiveQuery "news" ["ai", "tech"] then
    [{ title := some "n1", link := "l1", published_parsed := some 10, updated_parsed := none },
     { title := some "n2", link := "l2", published_parsed := some 20, updated_parsed := none },
     { title := some "n3", link := "l3", published_parsed := some 30, updated_parsed := none },
     { title := some "n4", link := "l4", published_parsed := some 40, updated_parsed := none },
     { title := some "n5", link := "l5", published_parsed := some 50, updated_parsed := none }]
  else []

/-- A feed with five entries for every query. -/
def feed5 : String → List Entry := fun _ =>
  [{ title := some "n1", link := "l1", published_parsed := some 10, updated_parsed := none },
   { title := some "n2", link := "l2", published_parsed := some 20, updated_parsed := none },
   { title := some "n3", link := "l3", published_parsed := some 30, updated_parsed := none },
   { title := some "n4", link := "l4", published_parsed := some 40, updated_parsed := none },
   { title := some "n5", link := "l5", published_parsed := some 50, updated_parsed := none }]

lemma dedupArticles_superset (l : List Article) (ex : List String) (k : String)
    (hk : k ∈ ex) : k ∈ (dedupArticles ex l).2 := by
  induction l generalizing ex with
  | nil => simpa [dedupArticles] using hk
  | cons a rest ih =>
    simp only [dedupArticles]
    split
    · exact ih (identityKey a :: ex) (List.mem_cons_of_mem _ hk)
    · exact ih ex hk

lemma dedupArticles_key_mem (l : List Article) (ex : List String) (a : Article)
    (ha : a ∈ l) (ht : pyStrip a.titre ≠ "") (hu : normUrl a.url ≠ "") :
    identityKey a ∈ (dedupArticles ex l).2 := by
  induction l generalizing ex with
  | nil => cases ha
  | cons b rest ih =>
    simp only [dedupArticles]
    rcases List.mem_cons.mp ha with rfl | hmem
    · split
      · exact dedupArticles_superset _ _ _ (List.mem_cons_self _ _)
      · next hcond =>
        rw [not_and_or, not_and_or, not_not] at hcond
        rcases hcond with hin | hT | hU
        · exact dedupArticles_superset _ _ _ hin
        · exact absurd ht hT
        · exact absurd hu hU
    · split
      · exact ih _ hmem
      · exact ih _ hmem

lemma dedupArticles_none_new (l : List Article) (ex : List String)
    (h : ∀ a ∈ l, identityKey a ∈ ex ∨ pyStrip a.titre = "" ∨ normUrl a.url = "") :
    (dedupArticles ex l).1 = [] := by
  induction l with
  | nil => rfl
  | cons a rest ih =>
    simp only [dedupArticles]
    split
    · next hcond =>
      rcases h a (List.mem_cons_self _ _) with hin | hT | hU
      · exact absurd hin hcond.1
      · exact absurd hT hcond.2.1
      · exact absurd hU hcond.2.2
    · exact ih fun b hb => h b (List.mem_cons_of_mem _ hb)

lemma dedupArticles_kept_good (l : List Article) (ex : List String) (a : Article)
    (ha : a ∈ (dedupArticles ex l).1) :
    pyStrip a.titre ≠ "" ∧ normUrl a.url ≠ "" := by
  induction l generalizing ex with
  | nil => cases ha
  | cons b rest ih =>
    simp only [dedupArticles] at ha
    revert ha
    split
    · next hcond =>
      intro ha
      rcases List.mem_cons.mp ha with rfl | hmem
      · exact ⟨hcond.2.1, hcond.2.2⟩
      · exact ih _ hmem
    · exact fun ha => ih _ ha

lemma dedupArticles_key_represented (l : List Article) (ex : List String) (a : Article)
    (ha : a ∈ l) (ht : pyStrip a.titre ≠ "") (hu : normUrl a.url ≠ "")
    (hnew : identityKey a ∉ ex) :
    ∃ b ∈ (dedupArticles ex l).1, identityKey b = identityKey a := by
  induction l generalizing ex with
  | nil => cases ha
  | cons b rest ih =>
    simp only [dedupArticles]
    rcases List.mem_cons.mp ha with rfl | hmem
    · split
      · exact ⟨a, List.mem_cons_self _ _, rfl⟩
      · next hcond =>
        rw [not_and_or, not_and_or, not_not] at hcond
        rcases hcond with hin | hT | hU
        · exact absurd hin hnew
        · exact absurd ht hT
        · exact absurd hu hU
    · split
      · next hcond =>
        by_cases hkey : identityKey a = identityKey b
        · exact ⟨b, List.mem_cons_self _ _, hkey.symm⟩
        · have hnew' : identityKey a ∉ identityKey b :: ex := by
            simp [hkey, hnew]
          obtain ⟨x, hx, hxkey⟩ := ih _ hmem hnew'
          exact ⟨x, List.mem_cons_of_mem _ hx, hxkey⟩
      · exact ih _ hmem hnew

/-- C5 counterexample: the dedup identifier is NOT lower-cased
(google_sheets_manager.py:269-278 builds `f"{title}|{url}"` from the merely
stripped title), so two items whose titles differ only in letter case get
different identity keys and are both kept by the duplicate filter — they are
not treated as the same logical item. -/
theorem c5_counterexample_case_sensitive_key :
    identityKey c5_a1 ≠ identityKey c5_a2 ∧
    (dedupArticles [] [c5_a1, c5_a2]).1.length = 2 := by decide

/-- C5 (amended): the identity key is the stripped title, `"|"`, and the
stripped/HTML-unwrapped url, with no lower-casing: items whose titles and
urls agree after trimming (e.g. differ only in surrounding whitespace) get
the same key, and a batch of two same-key items yields at most one accepted
item; but letter case is significant (see the counterexample). -/
theorem c5_identity_key_trim_and_unwrap :
    (∀ a b : Article, pyStrip a.titre = pyStrip b.titre →
      normUrl a.url = normUrl b.url → identityKey a = identityKey b) ∧
    (∀ (existing : List String) (a b : Article), identityKey a = identityKey b →
      (dedupArticles existing [a, b]).1.length ≤ 1) := by
  constructor
  · intro a b ht hu
    simp [identityKey, ht, hu]
  · intro existing a b hkey
    simp only [dedupArticles]
    split
    · next hconda =>
      have hbkey : identityKey b ∈ identityKey a :: existing := by
        simp [identityKey] at hkey ⊢
        simp [hkey]
      split
      · next hcondb => exact absurd hbkey (by simpa [identityKey] using hcondb.1)
      · simp [dedupArticles]
    · split
      · simp [dedupArticles]
      · simp [dedupArticles]

/-- Witness for C5: two items whose title and url differ only in surrounding
whitespace have equal identity keys. -/
theorem c5_witness :
    identityKey { date := 0, source := "s", titre := " Breaking News", url := "http://x/1 " } =
      identityKey { date := 1, source := "t", titre := "Breaking News ", url := " http://x/1" } :=
  c5_identity_key_trim_and_unwrap.1 _ _ (by decide) (by decide)

/-- C6: deduplication is idempotent — running the same batch a second time
against the key set produced by the first run (the sink's keys plus every
accepted item's key, exactly the `existing_articles` set after
google_sheets_manager.py:266-284) accepts zero new items. -/
theorem c6_dedup_idempotent (existing : List String) (batch : List Article) :
    (dedupArticles (dedupArticles existing batch).2 batch).1 = [] := by
  apply dedupArticles_none_new
  intro a ha
  by_cases ht : pyStrip a.titre = ""
  · exact Or.inr (Or.inl ht)
  · by_cases hu : normUrl a.url = ""
    · exact Or.inr (Or.inr hu)
    · exact Or.inl (dedupArticles_key_mem _ _ _ ha ht hu)

/-- C8 counterexample: an item that has a title but no url is dropped even
though its identity key is not among the existing keys — the filter
condition `identifier not in existing_articles and title and url`
(google_sheets_manager.py:280) requires BOTH title and url, not at least
one of the two. -/
theorem c8_counterexample_title_only_dropped :
    pyStrip c8_article.titre ≠ "" ∧ identityKey c8_article ∉ ([] : List String) ∧
    (dedupArticles [] [c8_article]).1 = [] := by decide

/-- C8 (amended): during deduplication exactly those candidates missing a
(stripped) title OR missing a (normalised) url are dropped for lacking an
identity: every accepted item has both, and every candidate with both whose
key is new relative to the sink's keys is represented in the output (it is
dropped only as a duplicate of a same-key item). -/
theorem c8_dropped_iff_missing_title_or_url :
    (∀ (ex : List String) (l : List Article) (a : Article),
      a ∈ (dedupArticles ex l).1 → pyStrip a.titre ≠ "" ∧ normUrl a.url ≠ "") ∧
    (∀ (ex : List String) (l : List Article) (a : Article),
      a ∈ l → pyStrip a.titre ≠ "" → normUrl a.url ≠ "" → identityKey a ∉ ex →
      ∃ b ∈ (dedupArticles ex l).1, identityKey b = identityKey a) := by
  exact ⟨fun ex l a ha => dedupArticles_kept_good l ex a ha,
    fun ex l a ha ht hu hnew => dedupArticles_key_represented l ex a ha ht hu hnew⟩

/-- Witness for C8: a concrete item with both title and url and a fresh key
is represented in the dedup output. -/
theorem c8_witness :
    ∃ b ∈ (dedupArticles ["old|k"] [c8_full_article]).1,
      identityKey b = identityKey c8_full_article :=
  c8_dropped_iff_missing_title_or_url.2 ["old|k"] [c8_full_article] c8_full_article
    (by decide) (by decide) (by decide) (by decide)

/-- C1 counterexample: a run where 3 items are fetched and the sink accepts
exactly 1 (one key already present, one in-batch duplicate) increments
`total_articles` by 3, because `CampaignScheduler.run_campaign`
(scheduler.py:111-118) passes `len(articles)` — the fetched count — to
`update_campaign_stats`, not the accepted count. -/
theorem c1_counterexample_counts_fetched_not_accepted :
    (sinkAccepted ["t1|u1"] 1728000200 c1_fetched).length = 1 ∧
    (run_campaign_stats baseRow 1728000200 c1_fetched).total_articles = 3 ∧
    (3 : Nat) ≠ 1 := by decide

/-- C1 (amended): for every run that found articles, `total_articles` and the
same-day `articles_today` are incremented by the number of items FETCHED
(the length of the multi-source fetch result), regardless of how many the
sink accepts after dedup and recency filtering. -/
theorem c1_counters_incremented_by_fetched_count (c : CampaignRow) (now : Int)
    (articles : List Article) (h : articles ≠ []) :
    (run_campaign_stats c now articles).total_articles =
      c.total_articles + articles.length ∧
    (∀ d, c.last_articles_date = some d → dayOf d = dayOf now →
      (run_campaign_stats c now articles).articles_today =
        c.articles_today + articles.length) := by
  have hne : articles.isEmpty = false := by
    cases articles with
    | nil => exact absurd rfl h
    | cons a l => rfl
  constructor
  · simp [run_campaign_stats, hne, update_campaign_stats]
  · intro d hd hday
    simp [run_campaign_stats, hne, update_campaign_stats, hd, hday]

/-- Witness for C1 (amended): the concrete 3-item run increments the total
by exactly the fetched count. -/
theorem c1_witness :
    (run_campaign_stats baseRow 1728000200 c1_fetched).total_articles =
      baseRow.total_articles + c1_fetched.length :=
  (c1_counters_incremented_by_fetched_count baseRow 1728000200 c1_fetched (by decide)).1

/-- C2: an active campaign is selected for execution iff its `last_check` is
null or the elapsed time since it reaches the interval of its frequency
(15min→15m, hourly→1h, daily→24h, weekly→7d); a null `last_check` is always
due (database/managers.py:374-438). -/
lemma campaignShouldRun_iff (f : Frequency) (lc : Option Int) (now : Int) :
    campaignShouldRun f.toStr lc now = true ↔
      (lc = none ∨ ∃ t, lc = some t ∧ f.interval ≤ now - t) := by
  cases lc with
  | none => simp [campaignShouldRun]
  | some t =>
    cases f <;> simp [campaignShouldRun, Frequency.toStr, Frequency.interval]

theorem c2_due_iff_elapsed_at_least_interval (cs : List CampaignRow)
    (c : CampaignRow) (f : Frequency) (now : Int) (hmem : c ∈ cs)
    (hact : c.status = "active") (hf : c.frequency = f.toStr) :
    c ∈ get_campaigns_for_execution cs now ↔
      (c.last_check = none ∨ ∃ t, c.last_check = some t ∧ f.interval ≤ now - t) := by
  unfold get_campaigns_for_execution
  simp only [List.mem_filter, decide_eq_true_eq]
  rw [hf, campaignShouldRun_iff]
  simp [hmem, hact]

/-- Witness for C2: an active hourly campaign last run 3700 seconds ago is
selected, by the due-ness characterisation. -/
theorem c2_witness :
    c2_row ∈ get_campaigns_for_execution [c2_row] 3700 ↔
      (c2_row.last_check = none ∨
        ∃ t, c2_row.last_check = some t ∧ Frequency.hourly.interval ≤ 3700 - t) :=
  c2_due_iff_elapsed_at_least_interval [c2_row] c2_row .hourly 3700 (by decide) rfl rfl

/-- C3 counterexample: the `campaigns` table (models.py:92-111) has no cursor
column, and a run with a non-empty fetch whose newest `published_at` is 5
leaves every timestamp the run writes (`last_check`, `last_articles_date`)
equal to `now` = 100, not to 5; the post-run record is even identical to the
one produced by a same-length fetch with completely different publication
timestamps, so no stored component equals `max(published_at)`. -/
theorem c3_counterexample_no_cursor_advance :
    (∀ a ∈ c3_articles, a.date ≤ 5) ∧ (∃ a ∈ c3_articles, a.date = 5) ∧
    (run_campaign_stats baseRow 100 c3_articles).last_check = some 100 ∧
    (run_campaign_stats baseRow 100 c3_articles).last_articles_date = some 100 ∧
    run_campaign_stats baseRow 100 c3_articles =
      run_campaign_stats baseRow 100 c3_articles_other ∧
    (100 : Int) ≠ 5 := by decide

/-- C3 (amended): the code maintains no cursor at all — a run with a
non-empty fetch stamps `last_check` with the current time, and the post-run
campaign record depends only on the NUMBER of fetched items: the items'
`published_at` values (hence their maximum) never influence stored state,
and no incremental filtering ever happens. -/
theorem c3_no_cursor_state_count_only (c : CampaignRow) (now : Int) :
    (∀ articles : List Article, articles ≠ [] →
      (run_campaign_stats c now articles).last_check = some now) ∧
    (∀ arts1 arts2 : List Article, arts1.length = arts2.length →
      run_campaign_stats c now arts1 = run_campaign_stats c now arts2) := by
  constructor
  · intro articles h
    have hne : articles.isEmpty = false := by
      cases articles with
      | nil => exact absurd rfl h
      | cons a l => rfl
    simp [run_campaign_stats, hne, update_campaign_stats]
  · intro arts1 arts2 hlen
    cases arts1 with
    | nil =>
      cases arts2 with
      | nil => rfl
      | cons b m => simp at hlen
    | cons a l =>
      cases arts2 with
      | nil => simp at hlen
      | cons b m =>
        simp only [run_campaign_stats, List.isEmpty_cons]
        rw [hlen]

/-- Witness for C3 (amended): the two concrete same-length fetches above
produce identical post-run records. -/
theorem c3_witness :
    run_campaign_stats baseRow 100 c3_articles =
      run_campaign_stats baseRow 100 c3_articles_other :=
  (c3_no_cursor_state_count_only baseRow 100).2 c3_articles c3_articles_other (by decide)

/-- C7: `update_campaign_stats` (database/managers.py:310-351) restarts
`articles_today` at the run's count when the stored `last_articles_date`
falls on a different calendar day than today (or is null), and adds to it
when the stored date is today. -/
theorem c7_daily_rollover (c : CampaignRow) (now : Int) (n : Nat) :
    ((∀ d, c.last_articles_date = some d → dayOf d ≠ dayOf now) →
      (update_campaign_stats c now n).articles_today = n) ∧
    (∀ d, c.last_articles_date = some d → dayOf d = dayOf now →
      (update_campaign_stats c now n).articles_today = c.articles_today + n) := by
  constructor
  · intro h
    cases hd : c.last_articles_date with
    | none => simp [update_campaign_stats, hd]
    | some d => simp [update_campaign_stats, hd, h d hd]
  · intro d hd hday
    simp [update_campaign_stats, hd, hday]

/-- Witness for C7: with `last_articles_date` on day 1 and a 5-item run on
day 2, `articles_today` ends at 5, not 12. -/
theorem c7_witness : (update_campaign_stats c7_row 172900 5).articles_today = 5 :=
  (c7_daily_rollover c7_row 172900 5).1 (by decide)

/-- C4 counterexample: with keyword expansion succeeding (terms `ai`,
`tech`), the fetch still queries the source with the raw keywords `news` —
`fetch_articles_multi_source` (fetch_multi_source.py:290-327) performs the
fetch BEFORE consulting the expander and never rebuilds the query — so a
feed that only matches the OR-expanded query yields zero articles, although
fetching with the spec's effective query would have yielded five. -/
theorem c4_counterexample_fetch_ignores_expansion :
    fetch_articles_multi_source "news" 25 true c4_feed id .noCreds
      (some (["ai"], ["tech"])) 0 = Except.ok [] ∧
    rssArticles (c4_feed (specEffectiveQuery "news" ["ai", "tech"])) id 25 0 ≠ [] := by
  refine ⟨rfl, by decide⟩

lemma fetch_multi_none_eq (keywords : String) (max_items : Nat)
    (feed : String → List Entry) (resolve : String → String)
    (twitter : TwitterOutcome) (now : Int) (hq : pyStrip keywords ≠ "") :
    fetch_articles_multi_source keywords max_items true feed resolve twitter none now =
      Except.ok ((allCollected keywords feed resolve twitter max_items now).take
        max_items) := by
  have hfetch : fetch_articles_rss keywords feed resolve max_items now =
      Except.ok (rssArticles (feed keywords) resolve max_items now) := by
    simp [fetch_articles_rss, hq]
  simp only [fetch_articles_multi_source, hfetch, allCollected]
  split <;> rfl

lemma fetch_multi_some_eq (keywords : String) (max_items : Nat)
    (feed : String → List Entry) (resolve : String → String)
    (twitter : TwitterOutcome) (now : Int) (fr en : List String)
    (hq : pyStrip keywords ≠ "") :
    fetch_articles_multi_source keywords max_items true feed resolve twitter
        (some (fr, en)) now =
      Except.ok ((if 5 ≤ (allCollected keywords feed resolve twitter max_items now).length
            ∧ fr ++ en ≠ []
          then suggestionArticle (fr ++ en) now ::
            allCollected keywords feed resolve twitter max_items now
          else allCollected keywords feed resolve twitter max_items now).take
        max_items) := by
  have hfetch : fetch_articles_rss keywords feed resolve max_items now =
      Except.ok (rssArticles (feed keywords) resolve max_items now) := by
    simp [fetch_articles_rss, hq]
  simp only [fetch_articles_multi_source, hfetch, allCollected]
  by_cases h5 : 5 ≤ (rssArticles (feed keywords) resolve max_items now ++
      fetch_twitter_articles twitter 10).length
  · have hne : rssArticles (feed keywords) resolve max_items now ++
        fetch_twitter_articles twitter 10 ≠ [] := by
      intro h0
      rw [h0] at h5
      simp at h5
    have h5' : 5 ≤ (rssArticles (feed keywords) resolve max_items now).length +
        (fetch_twitter_articles twitter 10).length := by
      simpa [List.length_append] using h5
    by_cases he : fr ++ en = []
    · simp [h5', hne, he]
    · simp [h5', hne, he]
  · have h5' : ¬ 5 ≤ (rssArticles (feed keywords) resolve max_items now).length +
        (fetch_twitter_articles twitter 10).length := by
      simpa [List.length_append] using h5
    simp [h5']

/-- C4 (amended): the effective fetch query is always the original keywords
— expansion terms are never OR-ed into it. When the whole expansion chain
fails (raises), the exception is caught and the run completes with exactly
the fetched articles; when it succeeds, its only effect is the optional
suggestion pseudo-article (added when at least 5 articles were collected and
at least one term was produced). -/
theorem c4_fetch_uses_original_keywords (keywords : String) (max_items : Nat)
    (feed : String → List Entry) (resolve : String → String)
    (twitter : TwitterOutcome) (now : Int) (hq : pyStrip keywords ≠ "") :
    (fetch_articles_multi_source keywords max_items true feed resolve twitter none now =
      Except.ok ((allCollected keywords feed resolve twitter max_items now).take
        max_items)) ∧
    (∀ fr en : List String,
      fetch_articles_multi_source keywords max_items true feed resolve twitter
        (some (fr, en)) now =
      Except.ok ((if 5 ≤ (allCollected keywords feed resolve twitter max_items now).length
            ∧ fr ++ en ≠ []
          then suggestionArticle (fr ++ en) now ::
            allCollected keywords feed resolve twitter max_items now
          else allCollected keywords feed resolve twitter max_items now).take
        max_items)) :=
  ⟨fetch_multi_none_eq keywords max_items feed resolve twitter now hq,
    fun fr en => fetch_multi_some_eq keywords max_items feed resolve twitter now fr en hq⟩

/-- Witness for C4 (amended): a concrete failed expansion chain is
non-fatal and leaves the fetched articles unchanged. -/
theorem c4_witness :
    fetch_articles_multi_source "news" 25 true c4_feed id .noCreds none 0 =
      Except.ok ((allCollected "news" c4_feed id .noCreds 25 0).take 25) :=
  (c4_fetch_uses_original_keywords "news" 25 c4_feed id .noCreds 0 (by decide)).1

/-- C9 counterexample: a whitespace-only query makes `fetch_articles_rss`
raise `ValueError` (fetch_multi_source.py:28-29), and
`fetch_articles_multi_source` calls it with no `try/except`
(fetch_multi_source.py:293), so the error propagates out of the fetch
instead of being treated as zero items — the fetch does not always return a
list. -/
theorem c9_counterexample_empty_query_raises :
    fetch_articles_multi_source "   " 25 true (fun _ => []) id .noCreds none 0 =
      Except.error "Le mot-clé ne peut pas être vide." := rfl

/-- C9 (amended): for queries that are non-empty after stripping, a Twitter
API error is treated as zero items for that source — the fetch returns the
same list as when Twitter credentials are simply absent — and the fetch
returns a list (never an error). The empty/whitespace query, however,
raises a ValueError out of the fetch (see the counterexample). -/
theorem c9_source_error_is_zero_items (keywords : String) (max_items : Nat)
    (sugg : Bool) (feed : String → List Entry) (resolve : String → String)
    (expansion : Option (List String × List String)) (now : Int)
    (hq : pyStrip keywords ≠ "") :
    fetch_articles_multi_source keywords max_items sugg feed resolve .apiError
        expansion now =
      fetch_articles_multi_source keywords max_items sugg feed resolve .noCreds
        expansion now ∧
    ∃ l, fetch_articles_multi_source keywords max_items sugg feed resolve .apiError
        expansion now = Except.ok l := by
  have hfetch : fetch_articles_rss keywords feed resolve max_items now =
      Except.ok (rssArticles (feed keywords) resolve max_items now) := by
    simp [fetch_articles_rss, hq]
  refine ⟨rfl, ?_⟩
  simp only [fetch_articles_multi_source, hfetch]
  split
  · rcases expansion with _ | ⟨fr, en⟩
    · exact ⟨_, rfl⟩
    · dsimp only
      split
      · exact ⟨_, rfl⟩
      · exact ⟨_, rfl⟩
  · exact ⟨_, rfl⟩

/-- Witness for C9 (amended): with the concrete query `news`, a Twitter API
error yields the same result as missing credentials. -/
theorem c9_witness :
    fetch_articles_multi_source "news" 25 true c4_feed id .apiError none 0 =
      fetch_articles_multi_source "news" 25 true c4_feed id .noCreds none 0 :=
  (c9_source_error_is_zero_items "news" 25 true c4_feed id none 0 (by decide)).1

/-- C10: when suggestions are enabled, at least 5 articles were collected and
the expansion chain returns at least one term, the multi-source fetch
returns the suggestion pseudo-article inserted at index 0 of the combined
list before the `[:max_items]` cap (fetch_multi_source.py:304-347); the
pseudo-article therefore counts toward the cap — the result holds
`min max_items (collected + 1)` entries, so a real article is displaced
whenever `max_items ≤ collected` — and the scheduler's statistics step
counts it too, incrementing `total_articles` by the result's full length. -/
theorem c10_suggestion_counts_toward_cap_and_stats (keywords : String)
    (max_items : Nat) (feed : String → List Entry) (resolve : String → String)
    (twitter : TwitterOutcome) (fr en : List String) (now : Int) (c : CampaignRow)
    (hq : pyStrip keywords ≠ "")
    (hlen : 5 ≤ (allCollected keywords feed resolve twitter max_items now).length)
    (hexp : fr ++ en ≠ []) (hmax : 1 ≤ max_items) :
    fetch_articles_multi_source keywords max_items true feed resolve twitter
        (some (fr, en)) now =
      Except.ok ((suggestionArticle (fr ++ en) now ::
        allCollected keywords feed resolve twitter max_items now).take max_items) ∧
    ((suggestionArticle (fr ++ en) now ::
        allCollected keywords feed resolve twitter max_items now).take
      max_items).head? = some (suggestionArticle (fr ++ en) now) ∧
    ((suggestionArticle (fr ++ en) now ::
        allCollected keywords feed resolve twitter max_items now).take
      max_items).length =
      min max_items ((allCollected keywords feed resolve twitter max_items now).length
        + 1) ∧
    (run_campaign_stats c now ((suggestionArticle (fr ++ en) now ::
        allCollected keywords feed resolve twitter max_items now).take
      max_items)).total_articles =
      c.total_articles + ((suggestionArticle (fr ++ en) now ::
        allCollected keywords feed resolve twitter max_items now).take
      max_items).length := by
  obtain ⟨m, rfl⟩ : ∃ m, max_items = m + 1 := ⟨max_items - 1, by omega⟩
  refine ⟨?_, ?_, ?_, ?_⟩
  · rw [fetch_multi_some_eq keywords (m + 1) feed resolve twitter now fr en hq,
      if_pos ⟨hlen, hexp⟩]
  · simp [List.take_succ_cons]
  · simp only [List.take_succ_cons, List.length_cons, List.length_take]
    omega
  · simp [List.take_succ_cons, run_campaign_stats, update_campaign_stats]

/-- Witness for C10: with 5 collected articles and `max_items = 5`, the
result starts with the suggestion pseudo-article (displacing a real
article from the capped slice). -/
theorem c10_witness :
    fetch_articles_multi_source "news" 5 true feed5 id .noCreds
        (some (["ai"], [])) 60 =
      Except.ok ((suggestionArticle (["ai"] ++ []) 60 ::
        allCollected "news" feed5 id .noCreds 5 60).take 5) :=
  (c10_suggestion_counts_toward_cap_and_stats "news" 5 feed5 id .noCreds ["ai"] [] 60
    baseRow (by decide) (by decide) (by decide) (by decide)).1

end NewsAgent
